import Mathlib

/-!
Shallow embedding of `contrib/sepgsql/hooks.c` (SE-PostgreSQL hook entry points).

The session-scoped mutable globals of the C module (`client_label`, the
performing mode, `sepgsql_context_info`) are gathered into an explicit
`SepgsqlState` threaded through each hook.  External collaborators — the
SELinux userspace AVC ("Decision Oracle"), `getpeercon_raw`, and any
previously chained hook — are passed in as parameters, since their behaviour
is outside this module.  `ereport(ERROR/FATAL)` and `elog(ERROR)` become an
`Except`/explicit-error result; `PG_TRY`/`PG_CATCH` blocks become explicit
error propagation with the catch-block restoration applied on both paths.
-/

/-- Security labels are opaque identifiers; we embed them as strings. -/
abbrev SecurityLabel := String

/-- The performing mode of SE-PostgreSQL (`SEPGSQL_MODE_*` in `sepgsql.h`).
`enforcing` is the code's `SEPGSQL_MODE_DEFAULT`. -/
inductive SepgsqlMode
  | disabled
  | internal
  | permissive
  | enforcing
deriving DecidableEq, Repr

/-- Error conditions surfaced by `ereport`/`elog`/`Assert` in `hooks.c`,
plus an `external` constructor for errors raised by chained or inner
handlers that merely unwind through this layer. -/
inductive PgError
  | insufficient_privilege
  | internal_error
  | assertion_failure
  | unexpected_value
  | external (n : Nat)
deriving DecidableEq, Repr

/-- `NodeTag` values relevant to the dispatch logic of `hooks.c`.
`T_AlterTableStmt` stands for a command kind outside the relation-creation
allow-list (a table is rewritten internally via `make_new_heap`), and
`T_Invalid` is the zero-initialised tag of `sepgsql_context_info`. -/
inductive NodeTag
  | T_Invalid
  | T_CreateStmt
  | T_ViewStmt
  | T_CreateSeqStmt
  | T_CompositeTypeStmt
  | T_CreateForeignTableStmt
  | T_SelectStmt
  | T_InsertStmt
  | T_DeleteStmt
  | T_UpdateStmt
  | T_CreatedbStmt
  | T_LoadStmt
  | T_AlterTableStmt
deriving DecidableEq, Repr

/-- Contextual information on DDL commands (`sepgsql_context_info_t`). -/
structure sepgsql_context_info_t where
  cmdtype : NodeTag
  createdb_dtemplate : Option String
deriving DecidableEq, Repr

/-- The session-scoped mutable state of the module: the client security
label (held in `label.c`), the performing mode, and the DDL context. -/
structure SepgsqlState where
  client_label : SecurityLabel
  mode : SepgsqlMode
  context_info : sepgsql_context_info_t
deriving DecidableEq, Repr

/-- Modelled from the spec: `sepgsql_set_client_label` lives in
`contrib/sepgsql/label.c`, which is not part of the provided sources; per
the spec, label transfer "is always a swap (old value returned to caller)",
matching its use `stack->old_label = sepgsql_set_client_label(...)` in
`hooks.c`. -/
def sepgsql_set_client_label (s : SepgsqlState) (new_label : SecurityLabel) :
    SecurityLabel × SepgsqlState :=
  (s.client_label, { s with client_label := new_label })

/-- Modelled from the spec: `sepgsql_set_mode` lives in
`contrib/sepgsql/selinux.c`, which is not part of the provided sources; it
installs the given performing mode for the session. -/
def sepgsql_set_mode (s : SepgsqlState) (m : SepgsqlMode) : SepgsqlState :=
  { s with mode := m }

/-- Modelled from the spec: `sepgsql_getenforce` lives in
`contrib/sepgsql/selinux.c`, which is not part of the provided sources; per
the spec it reports whether the enforcement mode is Enforcing (the code's
`SEPGSQL_MODE_DEFAULT`). -/
def sepgsql_getenforce (s : SepgsqlState) : Bool :=
  s.mode == SepgsqlMode.enforcing

/-- `STATUS_OK` of the PostgreSQL client-authentication protocol. -/
def STATUS_OK : Int := 0

/-- Observable outcome of one `sepgsql_client_auth` invocation:
a possible FATAL error, the resulting session state, whether the chained
authentication hook was delegated to, and how many times peer-label
retrieval (`getpeercon_raw`) was attempted. -/
structure ClientAuthOutcome where
  err : Option PgError
  state : SepgsqlState
  nextHookCalled : Bool
  peerRetrievals : Nat
deriving DecidableEq, Repr

/-- `sepgsql_client_auth` from `hooks.c`.  `next_hook_installed` says whether
`next_client_auth_hook` is non-NULL (the chained handler does not touch this
module's state); `peer` is the result of `getpeercon_raw` on the port's
socket (`none` = retrieval failure); `permissive` is the GUC
`sepgsql.permissive`. -/
def sepgsql_client_auth (next_hook_installed : Bool) (permissive : Bool)
    (peer : Option SecurityLabel) (status : Int) (s : SepgsqlState) :
    ClientAuthOutcome :=
  if status ≠ STATUS_OK then
    { err := none, state := s, nextHookCalled := next_hook_installed,
      peerRetrievals := 0 }
  else
    match peer with
    | none =>
        { err := some PgError.internal_error, state := s,
          nextHookCalled := next_hook_installed, peerRetrievals := 1 }
    | some context =>
        let (_, s₁) := sepgsql_set_client_label s context
        let s₂ := sepgsql_set_mode s₁
          (if permissive then SepgsqlMode.permissive else SepgsqlMode.enforcing)
        { err := none, state := s₂, nextHookCalled := next_hook_installed,
          peerRetrievals := 1 }

/-- C7: on successful authentication with a retrievable peer label, the
session label becomes the peer label and the mode becomes Permissive when
the `sepgsql.permissive` flag is set, Enforcing (the code's
`SEPGSQL_MODE_DEFAULT`) otherwise. -/
theorem client_auth_success_sets_label_and_mode
    (nh permissive : Bool) (peerLabel : SecurityLabel) (status : Int)
    (s : SepgsqlState) (hok : status = STATUS_OK) :
    let o := sepgsql_client_auth nh permissive (some peerLabel) status s
    o.err = none ∧ o.state.client_label = peerLabel ∧
      o.state.mode =
        (if permissive then SepgsqlMode.permissive else SepgsqlMode.enforcing) := by
  subst hok
  cases permissive <;>
    simp [sepgsql_client_auth, sepgsql_set_client_label, sepgsql_set_mode]

/-- Witness for C7: concrete successful authentication with
`permissive = false` and peer label `u:r:t:s0` yields Enforcing mode and
session label `u:r:t:s0`. -/
theorem client_auth_success_sets_label_and_mode_witness :
    let s : SepgsqlState :=
      { client_label := "system_u", mode := SepgsqlMode.internal,
        context_info := { cmdtype := NodeTag.T_Invalid,
                          createdb_dtemplate := none } }
    let o := sepgsql_client_auth false false (some "u:r:t:s0") 0 s
    o.err = none ∧ o.state.client_label = "u:r:t:s0" ∧
      o.state.mode = (if false then SepgsqlMode.permissive else SepgsqlMode.enforcing) :=
  client_auth_success_sets_label_and_mode false false "u:r:t:s0" 0 _ rfl

/-- C8: on successful authentication status, a failure to retrieve the peer
label from the transport raises a FATAL error (internal-error code) and the
session state is left untouched — the session never proceeds unlabeled. -/
theorem client_auth_peer_failure_fatal
    (nh permissive : Bool) (status : Int) (s : SepgsqlState)
    (hok : status = STATUS_OK) :
    sepgsql_client_auth nh permissive none status s =
      { err := some PgError.internal_error, state := s,
        nextHookCalled := nh, peerRetrievals := 1 } := by
  subst hok
  simp [sepgsql_client_auth]

/-- Witness for C8: a concrete successful-status authentication whose peer
retrieval fails produces the FATAL outcome. -/
theorem client_auth_peer_failure_fatal_witness :
    let s : SepgsqlState :=
      { client_label := "system_u", mode := SepgsqlMode.internal,
        context_info := { cmdtype := NodeTag.T_Invalid,
                          createdb_dtemplate := none } }
    sepgsql_client_auth true false none 0 s =
      { err := some PgError.internal_error, state := s,
        nextHookCalled := true, peerRetrievals := 1 } :=
  client_auth_peer_failure_fatal true false 0 _ rfl

/-- C10: on non-success authentication status, the handler returns after
delegating to the chained handler, with no peer-retrieval attempt and the
session label and mode unchanged. -/
theorem client_auth_failure_noop
    (nh permissive : Bool) (peer : Option SecurityLabel) (status : Int)
    (s : SepgsqlState) (hfail : status ≠ STATUS_OK) :
    sepgsql_client_auth nh permissive peer status s =
      { err := none, state := s, nextHookCalled := nh, peerRetrievals := 0 } := by
  simp [sepgsql_client_auth, hfail]

/-- Witness for C10: a concrete failed authentication (status 1) leaves the
state untouched and never attempts peer retrieval. -/
theorem client_auth_failure_noop_witness :
    let s : SepgsqlState :=
      { client_label := "system_u", mode := SepgsqlMode.internal,
        context_info := { cmdtype := NodeTag.T_Invalid,
                          createdb_dtemplate := none } }
    sepgsql_client_auth true true (some "u:r:t:s0") 1 s =
      { err := none, state := s, nextHookCalled := true, peerRetrievals := 0 } :=
  client_auth_failure_noop true true (some "u:r:t:s0") 1 _ (by decide)

/-- `sepgsql_exec_check_perms` from `hooks.c`.  `next_hook` is the answer of
`next_exec_check_perms_hook` when one is installed (`none` = no chained
handler); `dml_priv` is the answer `sepgsql_dml_privileges` would give for
this range table.  The second component counts how many times this layer's
own policy query (`sepgsql_dml_privileges`, i.e. the Decision Oracle) was
issued. -/
def sepgsql_exec_check_perms (next_hook : Option Bool) (dml_priv : Bool) :
    Bool × Nat :=
  match next_hook with
  | some reply =>
      if !reply then (false, 0)
      else if !dml_priv then (false, 1) else (true, 1)
  | none =>
      if !dml_priv then (false, 1) else (true, 1)

/-- C4: if a chained DML handler denies, this layer returns deny with zero
Decision Oracle queries of its own; otherwise the result is the conjunction
of the chained answer (if any) and this layer's own policy evaluation. -/
theorem exec_check_perms_conjunctive_short_circuit
    (next_hook : Option Bool) (dml_priv : Bool) :
    (next_hook = some false →
      sepgsql_exec_check_perms next_hook dml_priv = (false, 0)) ∧
    (next_hook ≠ some false →
      sepgsql_exec_check_perms next_hook dml_priv =
        (next_hook.getD true && dml_priv, 1)) := by
  cases next_hook with
  | none => cases dml_priv <;> simp [sepgsql_exec_check_perms]
  | some reply => cases reply <;> cases dml_priv <;> simp [sepgsql_exec_check_perms]

/-- Witness for C4: with a denying chained handler the outcome is
`(false, 0)` — no policy query of this layer — and with an allowing chained
handler the outcome conjoins with this layer's evaluation. -/
theorem exec_check_perms_conjunctive_short_circuit_witness :
    ((some false = some false → sepgsql_exec_check_perms (some false) true = (false, 0)) ∧
     (some false ≠ some false → sepgsql_exec_check_perms (some false) true =
        ((some false).getD true && true, 1))) ∧
    ((some true = some false → sepgsql_exec_check_perms (some true) false = (false, 0)) ∧
     (some true ≠ some false → sepgsql_exec_check_perms (some true) false =
        ((some true).getD true && false, 1))) :=
  ⟨exec_check_perms_conjunctive_short_circuit (some false) true,
   exec_check_perms_conjunctive_short_circuit (some true) false⟩

/-- `sepgsql_needs_fmgr_hook` from `hooks.c`.  `next_answer` is the answer
of `next_needs_fmgr_hook` when installed; `trusted_proc` is
`sepgsql_avc_trusted_proc(functionId)` (the Decision Oracle's transition
label for the function, if any); `execute_perm` is the answer of the
`db_procedure:{execute}` check `sepgsql_avc_check_perms`. -/
def sepgsql_needs_fmgr_hook (next_answer : Option Bool)
    (trusted_proc : Option SecurityLabel) (execute_perm : Bool) : Bool :=
  if next_answer = some true then true
  else if trusted_proc.isSome then true
  else if !execute_perm then true
  else false

/-- C9: the needs-invocation-wrapper query answers yes iff the chained
handler answers yes, or the Decision Oracle reports a transition label for
the function, or the subject lacks execute permission on the function. -/
theorem needs_fmgr_hook_iff
    (next_answer : Option Bool) (trusted_proc : Option SecurityLabel)
    (execute_perm : Bool) :
    sepgsql_needs_fmgr_hook next_answer trusted_proc execute_perm = true ↔
      (next_answer = some true ∨ trusted_proc.isSome = true ∨
        execute_perm = false) := by
  cases execute_perm <;> cases trusted_proc <;>
    simp [sepgsql_needs_fmgr_hook]

/-- Object identifiers; `Oid`s of the four system catalogs dispatched on in
`sepgsql_object_access`. -/
abbrev Oid := Nat

def DatabaseRelationId : Oid := 1262
def NamespaceRelationId : Oid := 2615
def RelationRelationId : Oid := 1259
def ProcedureRelationId : Oid := 1255

/-- Object access types of `catalog/objectaccess.h` visible to this hook.
`OAT_other` stands for any value other than `OAT_POST_CREATE`, which the
hook treats as an unexpected access type. -/
inductive ObjectAccessType
  | OAT_POST_CREATE
  | OAT_other
deriving DecidableEq, Repr

/-- Which per-class post-create handler `sepgsql_object_access` dispatched
to (if any). -/
inductive PostCreateCall
  | database_post_create (objectId : Oid) (dtemplate : Option String)
  | schema_post_create (objectId : Oid)
  | relation_post_create (objectId : Oid)
  | attribute_post_create (objectId : Oid) (subId : Int)
  | proc_post_create (objectId : Oid)
deriving DecidableEq, Repr

/-- `sepgsql_object_access` from `hooks.c`, returning which per-class
handler was invoked (`none` = no-op).  The chained
`next_object_access_hook` runs first and is external to this state, so it
is not modelled here; `elog(ERROR, "unexpected object access type")`
becomes an error result. -/
def sepgsql_object_access (ctx : sepgsql_context_info_t)
    (access : ObjectAccessType) (classId objectId : Oid) (subId : Int) :
    Except PgError (Option PostCreateCall) :=
  match access with
  | ObjectAccessType.OAT_POST_CREATE =>
      if classId = DatabaseRelationId then
        Except.ok (some (PostCreateCall.database_post_create objectId
          ctx.createdb_dtemplate))
      else if classId = NamespaceRelationId then
        Except.ok (some (PostCreateCall.schema_post_create objectId))
      else if classId = RelationRelationId then
        if subId = 0 then
          match ctx.cmdtype with
          | NodeTag.T_CreateStmt =>
              Except.ok (some (PostCreateCall.relation_post_create objectId))
          | NodeTag.T_ViewStmt =>
              Except.ok (some (PostCreateCall.relation_post_create objectId))
          | NodeTag.T_CreateSeqStmt =>
              Except.ok (some (PostCreateCall.relation_post_create objectId))
          | NodeTag.T_CompositeTypeStmt =>
              Except.ok (some (PostCreateCall.relation_post_create objectId))
          | NodeTag.T_CreateForeignTableStmt =>
              Except.ok (some (PostCreateCall.relation_post_create objectId))
          | NodeTag.T_SelectStmt =>
              Except.ok (some (PostCreateCall.relation_post_create objectId))
          | _ => Except.ok none
        else
          Except.ok (some (PostCreateCall.attribute_post_create objectId subId))
      else if classId = ProcedureRelationId then
        Except.ok (some (PostCreateCall.proc_post_create objectId))
      else
        Except.ok none
  | ObjectAccessType.OAT_other => Except.error PgError.unexpected_value

/-- C5: a creation-completed event on the relation class with `subId = 0`
invokes the per-class relation handler iff the current command kind is in
the fixed allow-list {CreateStmt, ViewStmt, CreateSeqStmt,
CompositeTypeStmt, CreateForeignTableStmt, SelectStmt}; outside the
allow-list the event is a no-op, and events on unsupported object classes
are no-ops. -/
theorem object_access_relation_allow_list
    (ctx : sepgsql_context_info_t) (objectId : Oid) :
    (sepgsql_object_access ctx ObjectAccessType.OAT_POST_CREATE
        RelationRelationId objectId 0 =
      Except.ok (some (PostCreateCall.relation_post_create objectId)) ↔
        (ctx.cmdtype = NodeTag.T_CreateStmt ∨ ctx.cmdtype = NodeTag.T_ViewStmt ∨
         ctx.cmdtype = NodeTag.T_CreateSeqStmt ∨
         ctx.cmdtype = NodeTag.T_CompositeTypeStmt ∨
         ctx.cmdtype = NodeTag.T_CreateForeignTableStmt ∨
         ctx.cmdtype = NodeTag.T_SelectStmt)) ∧
    (¬(ctx.cmdtype = NodeTag.T_CreateStmt ∨ ctx.cmdtype = NodeTag.T_ViewStmt ∨
         ctx.cmdtype = NodeTag.T_CreateSeqStmt ∨
         ctx.cmdtype = NodeTag.T_CompositeTypeStmt ∨
         ctx.cmdtype = NodeTag.T_CreateForeignTableStmt ∨
         ctx.cmdtype = NodeTag.T_SelectStmt) →
      sepgsql_object_access ctx ObjectAccessType.OAT_POST_CREATE
        RelationRelationId objectId 0 = Except.ok none) ∧
    (∀ classId : Oid, classId ≠ DatabaseRelationId →
      classId ≠ NamespaceRelationId → classId ≠ RelationRelationId →
      classId ≠ ProcedureRelationId → ∀ subId : Int,
      sepgsql_object_access ctx ObjectAccessType.OAT_POST_CREATE
        classId objectId subId = Except.ok none) := by
  refine ⟨?_, ?_, ?_⟩
  · cases h : ctx.cmdtype <;>
      simp [sepgsql_object_access, DatabaseRelationId, NamespaceRelationId,
        RelationRelationId, ProcedureRelationId, h]
  · intro hnot
    cases h : ctx.cmdtype <;>
      simp [sepgsql_object_access, DatabaseRelationId, NamespaceRelationId,
        RelationRelationId, ProcedureRelationId, h] <;>
      simp [h] at hnot
  · intro classId h1 h2 h3 h4 subId
    simp [sepgsql_object_access, h1, h2, h3, h4]

/-- Witness for C5: with command kind `CreateStmt` the relation handler is
invoked; with `AlterTableStmt` (an internal table-rewrite path) the event is
a no-op; and class 9999 is a no-op. -/
theorem object_access_relation_allow_list_witness :
    let ctxC : sepgsql_context_info_t :=
      { cmdtype := NodeTag.T_CreateStmt, createdb_dtemplate := none }
    let ctxA : sepgsql_context_info_t :=
      { cmdtype := NodeTag.T_AlterTableStmt, createdb_dtemplate := none }
    (sepgsql_object_access ctxC ObjectAccessType.OAT_POST_CREATE
        RelationRelationId 16384 0 =
      Except.ok (some (PostCreateCall.relation_post_create 16384))) ∧
    (sepgsql_object_access ctxA ObjectAccessType.OAT_POST_CREATE
        RelationRelationId 16384 0 = Except.ok none) ∧
    (sepgsql_object_access ctxA ObjectAccessType.OAT_POST_CREATE
        9999 16384 0 = Except.ok none) := by
  refine ⟨?_, ?_, ?_⟩
  · exact ((object_access_relation_allow_list
      { cmdtype := NodeTag.T_CreateStmt, createdb_dtemplate := none } 16384).1).mpr
      (Or.inl rfl)
  · exact (object_access_relation_allow_list
      { cmdtype := NodeTag.T_AlterTableStmt, createdb_dtemplate := none } 16384).2.1
      (by decide)
  · exact (object_access_relation_allow_list
      { cmdtype := NodeTag.T_AlterTableStmt, createdb_dtemplate := none } 16384).2.2
      9999 (by decide) (by decide) (by decide) (by decide) 0

/-- Event types of the fmgr hook (`FmgrHookEventType` in `fmgr.h`). -/
inductive FmgrHookEventType
  | FHET_START
  | FHET_END
  | FHET_ABORT
deriving DecidableEq, Repr

/-- The per-activation record `sepgsql_fmgr_hook` keeps in the caller's
private slot (the anonymous `stack` struct in `hooks.c`): the remembered
prior label, the transition label looked up at creation, and the private
sub-slot handed to the chained fmgr hook (a `Datum`, embedded as `Nat`). -/
structure FmgrHookStack where
  old_label : Option SecurityLabel
  new_label : Option SecurityLabel
  next_private : Nat
deriving DecidableEq, Repr

/-- `sepgsql_fmgr_hook` from `hooks.c`.  `trusted_proc` is
`sepgsql_avc_trusted_proc(flinfo->fn_oid)` (the Decision Oracle's transition
label for the function, if any); `transition_allowed` says whether the
`process:{transition}` check `sepgsql_avc_check_perms_label` passes without
raising (it is consulted only when the frame is freshly created and a
transition label exists); `next_hook` is the chained fmgr hook, which runs
after the swap-in at Start and before the swap-back at End/Abort and may
mutate session state arbitrarily; `priv` is the caller's private slot.  The
failed `Assert(!stack->old_label)` and the NULL `stack` dereference on
End/Abort without a prior Start are both rendered as `assertion_failure`. -/
def sepgsql_fmgr_hook (trusted_proc : Option SecurityLabel)
    (transition_allowed : Bool)
    (next_hook : Option (FmgrHookEventType → SepgsqlState → SepgsqlState))
    (event : FmgrHookEventType) (priv : Option FmgrHookStack)
    (s : SepgsqlState) : Except PgError (FmgrHookStack × SepgsqlState) :=
  match event with
  | FmgrHookEventType.FHET_START =>
      let fresh := priv.isNone
      let stack := priv.getD
        { old_label := none, new_label := trusted_proc, next_private := 0 }
      if fresh && stack.new_label.isSome && !transition_allowed then
        Except.error PgError.insufficient_privilege
      else if stack.old_label.isSome then
        Except.error PgError.assertion_failure
      else
        let (stack₁, s₁) :=
          match stack.new_label with
          | some nl =>
              let (old, s') := sepgsql_set_client_label s nl
              ({ stack with old_label := some old }, s')
          | none => (stack, s)
        let s₂ :=
          match next_hook with
          | some nh => nh FmgrHookEventType.FHET_START s₁
          | none => s₁
        Except.ok (stack₁, s₂)
  | FmgrHookEventType.FHET_END | FmgrHookEventType.FHET_ABORT =>
      match priv with
      | none => Except.error PgError.assertion_failure
      | some stack =>
          let s₁ :=
            match next_hook with
            | some nh => nh event s
            | none => s
          let s₂ :=
            match stack.old_label with
            | some ol => (sepgsql_set_client_label s₁ ol).2
            | none => s₁
          Except.ok ({ stack with old_label := none }, s₂)

/-- C1: for a trusted-procedure activation (the Decision Oracle reports a
transition label) whose Start succeeded from session label
`s₀.client_label`, the subsequent End or Abort on that activation's frame
succeeds, restores the session label to exactly `s₀.client_label`, and
clears the prior-label slot — whatever state `s_mid` the wrapped call left
behind (including after an error) and whatever the chained hook does. -/
theorem fmgr_hook_label_round_trip
    (nl : SecurityLabel) (ta : Bool)
    (nh₀ nh : Option (FmgrHookEventType → SepgsqlState → SepgsqlState))
    (s₀ : SepgsqlState) (st : FmgrHookStack) (s₁ : SepgsqlState)
    (hstart : sepgsql_fmgr_hook (some nl) ta nh₀ FmgrHookEventType.FHET_START
      none s₀ = Except.ok (st, s₁))
    (event : FmgrHookEventType)
    (hev : event = FmgrHookEventType.FHET_END ∨
      event = FmgrHookEventType.FHET_ABORT)
    (s_mid : SepgsqlState) :
    (sepgsql_fmgr_hook (some nl) ta nh event (some st) s_mid).map
        (fun r => (r.2.client_label, r.1.old_label)) =
      Except.ok (s₀.client_label, (none : Option SecurityLabel)) := by
  cases ta with
  | false => simp [sepgsql_fmgr_hook] at hstart
  | true =>
      have hst : st =
          { old_label := some s₀.client_label, new_label := some nl,
            next_private := 0 } := by
        cases nh₀ <;>
          · simp [sepgsql_fmgr_hook, sepgsql_set_client_label] at hstart
            exact hstart.1.symm
      rcases hev with hev | hev <;> subst hev <;> cases nh <;>
        simp [sepgsql_fmgr_hook, sepgsql_set_client_label, hst, Except.map]

/-- Witness for C1: a concrete Start with transition label
`u:r:trusted_t:s0` from session label `u:r:client_t:s0`, followed by an
Abort issued on a state whose label was clobbered in between, restores the
session label to `u:r:client_t:s0`. -/
theorem fmgr_hook_label_round_trip_witness :
    (sepgsql_fmgr_hook (some "u:r:trusted_t:s0") true none
        FmgrHookEventType.FHET_ABORT
        (some { old_label := some "u:r:client_t:s0",
                new_label := some "u:r:trusted_t:s0", next_private := 0 })
        { client_label := "u:r:other_t:s0", mode := SepgsqlMode.enforcing,
          context_info := { cmdtype := NodeTag.T_Invalid,
                            createdb_dtemplate := none } }).map
        (fun r => (r.2.client_label, r.1.old_label)) =
      Except.ok ("u:r:client_t:s0", (none : Option SecurityLabel)) :=
  fmgr_hook_label_round_trip "u:r:trusted_t:s0" true none none
    { client_label := "u:r:client_t:s0", mode := SepgsqlMode.enforcing,
      context_info := { cmdtype := NodeTag.T_Invalid,
                        createdb_dtemplate := none } }
    _ _ rfl FmgrHookEventType.FHET_ABORT (Or.inr rfl)
    { client_label := "u:r:other_t:s0", mode := SepgsqlMode.enforcing,
      context_info := { cmdtype := NodeTag.T_Invalid,
                        createdb_dtemplate := none } }

/-- C3: a second Start on a frame whose prior label is already recorded is
rejected with a loud contract violation (the failed
`Assert(!stack->old_label)`); the error result carries no updated frame, so
the recorded prior label is never overwritten. -/
theorem fmgr_hook_double_start_rejected
    (tp : Option SecurityLabel) (ta : Bool)
    (nh : Option (FmgrHookEventType → SepgsqlState → SepgsqlState))
    (st : FmgrHookStack) (l : SecurityLabel) (h : st.old_label = some l)
    (s : SepgsqlState) :
    sepgsql_fmgr_hook tp ta nh FmgrHookEventType.FHET_START (some st) s =
      Except.error PgError.assertion_failure := by
  simp [sepgsql_fmgr_hook, h]

/-- Witness for C3: a concrete re-Start on a frame that already remembers
prior label `u:r:client_t:s0` is rejected. -/
theorem fmgr_hook_double_start_rejected_witness :
    sepgsql_fmgr_hook (some "u:r:trusted_t:s0") true none
        FmgrHookEventType.FHET_START
        (some { old_label := some "u:r:client_t:s0",
                new_label := some "u:r:trusted_t:s0", next_private := 0 })
        { client_label := "u:r:trusted_t:s0", mode := SepgsqlMode.enforcing,
          context_info := { cmdtype := NodeTag.T_Invalid,
                            createdb_dtemplate := none } } =
      Except.error PgError.assertion_failure :=
  fmgr_hook_double_start_rejected (some "u:r:trusted_t:s0") true none
    { old_label := some "u:r:client_t:s0",
      new_label := some "u:r:trusted_t:s0", next_private := 0 }
    "u:r:client_t:s0" rfl
    { client_label := "u:r:trusted_t:s0", mode := SepgsqlMode.enforcing,
      context_info := { cmdtype := NodeTag.T_Invalid,
                        createdb_dtemplate := none } }

/-- Query operation types (`CmdType` in `nodes/nodes.h`) as seen by
`sepgsql_executor_start`; `CMD_other` stands for any operation outside the
four it recognises. -/
inductive CmdType
  | CMD_SELECT
  | CMD_INSERT
  | CMD_DELETE
  | CMD_UPDATE
  | CMD_other
deriving DecidableEq, Repr

/-- A nested, host-driven dispatch (`standard_ExecutorStart`,
`standard_ProcessUtility`, or a chained hook): it may mutate the
session-scoped globals arbitrarily and may raise an error; because the C
globals survive a `longjmp`, it returns the mutated state together with the
possible error it raises. -/
abbrev InnerDispatch := SepgsqlState → Option PgError × SepgsqlState

/-- `sepgsql_executor_start` from `hooks.c`: snapshot
`sepgsql_context_info`, set `cmdtype` from the query's operation, run the
inner dispatch inside `PG_TRY`, and restore the snapshot on both the catch
path and the normal path. -/
def sepgsql_executor_start (inner : InnerDispatch) (operation : CmdType)
    (s₀ : SepgsqlState) : Option PgError × SepgsqlState :=
  let saved_context_info := s₀.context_info
  let s₁ :=
    if operation = CmdType.CMD_SELECT then
      { s₀ with context_info :=
        { s₀.context_info with cmdtype := NodeTag.T_SelectStmt } }
    else if operation = CmdType.CMD_INSERT then
      { s₀ with context_info :=
        { s₀.context_info with cmdtype := NodeTag.T_InsertStmt } }
    else if operation = CmdType.CMD_DELETE then
      { s₀ with context_info :=
        { s₀.context_info with cmdtype := NodeTag.T_DeleteStmt } }
    else if operation = CmdType.CMD_UPDATE then
      { s₀ with context_info :=
        { s₀.context_info with cmdtype := NodeTag.T_UpdateStmt } }
    else s₀
  let r := inner s₁
  (r.1, { r.2 with context_info := saved_context_info })

/-- A `DefElem` of a `CreatedbStmt` options list (name/value pair). -/
structure DefElem where
  defname : String
  arg : String
deriving DecidableEq, Repr

/-- The slice of a utility-command parse tree `sepgsql_utility_command`
inspects: its `NodeTag`, plus the options list in the `CreatedbStmt` case
(empty for other tags). -/
structure ParseNode where
  tag : NodeTag
  options : List DefElem
deriving DecidableEq, Repr

/-- The `foreach` scan of `sepgsql_utility_command` over a `CreatedbStmt`
options list: the first `"template"` option's value, if any. -/
def find_createdb_template : List DefElem → Option String
  | [] => none
  | defel :: rest =>
      if defel.defname = "template" then some defel.arg
      else find_createdb_template rest

/-- Observable outcome of one `sepgsql_utility_command` invocation: the
error it raises or propagates (if any), the resulting session state, and
whether it delegated to the chained/standard ProcessUtility handler. -/
structure UtilityOutcome where
  err : Option PgError
  state : SepgsqlState
  delegated : Bool
deriving DecidableEq, Repr

/-- `sepgsql_utility_command` from `hooks.c`: snapshot
`sepgsql_context_info`, set `cmdtype` from the parse tree's tag, remember
the template name of a `CreatedbStmt`, reject `LoadStmt` while enforcing
(`ereport(ERROR)` before any delegation, caught by `PG_CATCH` which
restores the snapshot and rethrows), otherwise delegate to the inner
dispatch and restore the snapshot on both the catch path and the normal
path. -/
def sepgsql_utility_command (inner : InnerDispatch) (parsetree : ParseNode)
    (s₀ : SepgsqlState) : UtilityOutcome :=
  let saved_context_info := s₀.context_info
  let s₁ := { s₀ with context_info :=
    { s₀.context_info with cmdtype := parsetree.tag } }
  match parsetree.tag with
  | NodeTag.T_CreatedbStmt =>
      let s₂ :=
        match find_createdb_template parsetree.options with
        | some t => { s₁ with context_info :=
            { s₁.context_info with createdb_dtemplate := some t } }
        | none => s₁
      let r := inner s₂
      { err := r.1, state := { r.2 with context_info := saved_context_info },
        delegated := true }
  | NodeTag.T_LoadStmt =>
      if sepgsql_getenforce s₁ then
        { err := some PgError.insufficient_privilege,
          state := { s₁ with context_info := saved_context_info },
          delegated := false }
      else
        let r := inner s₁
        { err := r.1, state := { r.2 with context_info := saved_context_info },
          delegated := true }
  | _ =>
      let r := inner s₁
      { err := r.1, state := { r.2 with context_info := saved_context_info },
        delegated := true }

/-- C2: for every nested dispatch entered through `sepgsql_utility_command`
or `sepgsql_executor_start`, and every exit path (the inner dispatch may
return normally, be denied, or raise any error while leaving arbitrary
mutations behind), the `sepgsql_context_info` observed after the exit
equals the one in effect before entry.  Since `inner` is universally
quantified, it covers arbitrarily nested further entries of either hook, so
restoration is LIFO across nesting. -/
theorem nested_dispatch_context_restored
    (inner : InnerDispatch) (s : SepgsqlState) :
    (∀ parsetree : ParseNode,
      (sepgsql_utility_command inner parsetree s).state.context_info =
        s.context_info) ∧
    (∀ operation : CmdType,
      (sepgsql_executor_start inner operation s).2.context_info =
        s.context_info) := by
  constructor
  · intro parsetree
    cases h : parsetree.tag <;> simp [sepgsql_utility_command, h]
    all_goals (split <;> simp)
  · intro operation
    cases operation <;> simp [sepgsql_executor_start]

/-- C6: a LOAD command dispatched while enforcing is denied with an
insufficient-privilege error before any delegation; dispatched while not
enforcing it is delegated normally (the inner dispatch runs and its error,
if any, is propagated). -/
theorem utility_command_load_guard
    (inner : InnerDispatch) (parsetree : ParseNode) (s : SepgsqlState)
    (hload : parsetree.tag = NodeTag.T_LoadStmt) :
    (sepgsql_getenforce s = true →
      (sepgsql_utility_command inner parsetree s).err =
          some PgError.insufficient_privilege ∧
        (sepgsql_utility_command inner parsetree s).delegated = false) ∧
    (sepgsql_getenforce s = false →
      (sepgsql_utility_command inner parsetree s).delegated = true ∧
        (sepgsql_utility_command inner parsetree s).err =
          (inner { s with context_info :=
            { s.context_info with cmdtype := NodeTag.T_LoadStmt } }).1) := by
  constructor
  · intro hg
    simp_all [sepgsql_utility_command, sepgsql_getenforce, hload]
  · intro hg
    simp_all [sepgsql_utility_command, sepgsql_getenforce, hload]

/-- Witness for C6: a concrete LOAD in Enforcing mode is denied without
delegation; the same LOAD in Permissive mode is delegated normally. -/
theorem utility_command_load_guard_witness :
    let inner : InnerDispatch := fun t => (none, t)
    let pt : ParseNode := { tag := NodeTag.T_LoadStmt, options := [] }
    let sE : SepgsqlState :=
      { client_label := "u:r:t:s0", mode := SepgsqlMode.enforcing,
        context_info := { cmdtype := NodeTag.T_Invalid,
                          createdb_dtemplate := none } }
    let sP : SepgsqlState :=
      { client_label := "u:r:t:s0", mode := SepgsqlMode.permissive,
        context_info := { cmdtype := NodeTag.T_Invalid,
                          createdb_dtemplate := none } }
    ((sepgsql_getenforce sE = true →
      (sepgsql_utility_command inner pt sE).err =
          some PgError.insufficient_privilege ∧
        (sepgsql_utility_command inner pt sE).delegated = false) ∧
     (sepgsql_getenforce sE = false →
      (sepgsql_utility_command inner pt sE).delegated = true ∧
        (sepgsql_utility_command inner pt sE).err =
          (inner { sE with context_info :=
            { sE.context_info with cmdtype := NodeTag.T_LoadStmt } }).1)) ∧
    ((sepgsql_getenforce sP = true →
      (sepgsql_utility_command inner pt sP).err =
          some PgError.insufficient_privilege ∧
        (sepgsql_utility_command inner pt sP).delegated = false) ∧
     (sepgsql_getenforce sP = false →
      (sepgsql_utility_command inner pt sP).delegated = true ∧
        (sepgsql_utility_command inner pt sP).err =
          (inner { sP with context_info :=
            { sP.context_info with cmdtype := NodeTag.T_LoadStmt } }).1)) :=
  ⟨utility_command_load_guard (fun t => (none, t))
      { tag := NodeTag.T_LoadStmt, options := [] }
      { client_label := "u:r:t:s0", mode := SepgsqlMode.enforcing,
        context_info := { cmdtype := NodeTag.T_Invalid,
                          createdb_dtemplate := none } } rfl,
   utility_command_load_guard (fun t => (none, t))
      { tag := NodeTag.T_LoadStmt, options := [] }
      { client_label := "u:r:t:s0", mode := SepgsqlMode.permissive,
        context_info := { cmdtype := NodeTag.T_Invalid,
                          createdb_dtemplate := none } } rfl⟩
